import Mathlib

/-
Verification of the XLC/BSTT compliance-dashboard core against its
specification.

The development shallowly embeds the ETL normalization, week alignment,
ingestion orchestration and report aggregation logic of the repository
(backend/core/services.py, backend/core/management/commands/sync_csv.py,
backend/reports/generators.py) as executable Lean definitions, and proves
or refutes the specified properties about them.

Conventions of the embedding:
* Calendar dates are represented by their proleptic Gregorian ordinal
  (day number, 0001-01-01 = 1, exactly as CPython datetime.toordinal)
  together with their calendar year; the Python library functions
  date.isocalendar and date.isoweekday that services.py calls are
  translated from their CPython sources (Lib/datetime.py) onto this
  representation.  Integer division / and modulo % on Int agree with the
  Python floor-division semantics for the positive divisors used here.
* A pandas DataFrame is a header (list of column names) plus a list of
  rows, each row a list of cells positionally aligned with the header.
  A cell is either missing (NaN), a string, a number (modelled as a
  rational; floats are only ever compared and defaulted, never rounded,
  in the embedded code paths), or a parsed date value.
* Database effects are explicit: a DBState carries the fact table
  (TimeEntry rows) and the append-only audit table (ETLHistory rows).
  Store exceptions are modelled by an explicit exception oracle telling
  at which point of a run the store raises; the Django transaction
  semantics of each code path determine what survives in the state.
* Wall-clock items (run_date, duration_seconds) and file-system access
  are outside the embedding; the year detected from a file path is
  passed as an explicit parameter.
-/

set_option autoImplicit false

namespace XlcBstt

/-! ## Calendar arithmetic (CPython Lib/datetime.py helpers used by services.py) -/

/-- Number of days before January 1 of the given year, proleptic
Gregorian; CPython `_days_before_year`. -/
def days_before_year (y : Int) : Int :=
  365 * (y - 1) + (y - 1) / 4 - (y - 1) / 100 + (y - 1) / 400

/-- Ordinal of January 1 of the given year (`_ymd2ord(year, 1, 1)`). -/
def jan1_ordinal (y : Int) : Int :=
  days_before_year y + 1

/-- A Python `datetime.date`, reduced to the data the embedded code
reads: the calendar year and the toordinal day number. -/
structure PyDate where
  year : Int
  ord : Int
deriving DecidableEq

/-- A date is valid when its ordinal lies inside its calendar year and
the year is in the range Python supports. -/
def PyDate.valid (d : PyDate) : Prop :=
  1 ≤ d.year ∧ jan1_ordinal d.year ≤ d.ord ∧ d.ord < jan1_ordinal (d.year + 1)

instance (d : PyDate) : Decidable d.valid := by
  unfold PyDate.valid
  exact instDecidableAnd

/-- CPython `date.isoweekday`: Monday = 1 .. Sunday = 7.  Ordinal 1
(0001-01-01) is a Monday. -/
def isoweekday (ord : Int) : Int :=
  (ord - 1) % 7 + 1

/-- CPython `_isoweek1monday year`: the ordinal of the Monday starting
ISO week 1 of the year (the week containing the first Thursday, i.e.
containing January 4). -/
def isoweek1monday (year : Int) : Int :=
  if 3 < (jan1_ordinal year + 6) % 7 then
    jan1_ordinal year - (jan1_ordinal year + 6) % 7 + 7
  else
    jan1_ordinal year - (jan1_ordinal year + 6) % 7

/-- CPython `date.isocalendar`, returning (ISO year, ISO week, ISO
weekday).  Translated clause by clause from Lib/datetime.py. -/
def isocalendar (d : PyDate) : Int × Int × Int :=
  if (d.ord - isoweek1monday d.year) / 7 < 0 then
    (d.year - 1, (d.ord - isoweek1monday (d.year - 1)) / 7 + 1,
      (d.ord - isoweek1monday (d.year - 1)) % 7 + 1)
  else if 52 ≤ (d.ord - isoweek1monday d.year) / 7 ∧ isoweek1monday (d.year + 1) ≤ d.ord then
    (d.year + 1, 1, (d.ord - isoweek1monday d.year) % 7 + 1)
  else
    (d.year, (d.ord - isoweek1monday d.year) / 7 + 1, (d.ord - isoweek1monday d.year) % 7 + 1)

/-- services.py `extract_week_number`: ISO week number and ISO year of a
date, or (None, None) for a null date.  The pair is (week, year), read
off `iso_cal[1]` and `iso_cal[0]`. -/
def extract_week_number (date_value : Option PyDate) : Option Int × Option Int :=
  match date_value with
  | none => (none, none)
  | some d => (some (isocalendar d).2.1, some (isocalendar d).1)

/-- services.py `get_week_display_date`: the Sunday of a given ISO week,
computed from January 4 of the ISO year.  Returns the ordinal of the
resulting date. -/
def get_week_display_date (week_year week_number : Int) : Int :=
  (jan1_ordinal week_year + 3) - (isoweekday (jan1_ordinal week_year + 3) - 1)
    + 7 * (week_number - 1) + 6

/-- The ordinal of the Monday starting ISO week w of ISO year y; day d
falls within ISO week w of ISO year y iff
isoWeekMonday y w ≤ d ≤ isoWeekMonday y w + 6. -/
def isoWeekMonday (y w : Int) : Int :=
  isoweek1monday y + 7 * (w - 1)

/-! ## Data model (backend/core/models.py) -/

/-- The TimeEntry fact row, with the fields of the Django model.  Dates
and datetimes are nullable; decimal and float columns are rationals;
blank CharFields are plain strings. -/
structure TimeEntry where
  year : Int
  ofc_name : String
  xlc_operation : String
  dt_end_cli_work_week : Option PyDate
  work_date : Option PyDate
  date_range : String
  week_number : Option Int
  week_year : Option Int
  applicant_id : String
  last_name : String
  first_name : String
  full_name : String
  employee_type_id : String
  shift_number : String
  bu_dept_name : String
  allocation_method : String
  dt_time_start : Option PyDate
  dt_time_end : Option PyDate
  reg_hours : Rat
  ot_hours : Rat
  dt_hours : Rat
  hol_wrk_hours : Rat
  total_hours : Rat
  clock_in_local : String
  clock_in_tries : Rat
  clock_in_method : String
  clock_out_local : String
  clock_out_tries : Rat
  clock_out_method : String
  entry_type : String
deriving DecidableEq

/-- A TimeEntry with every field at the Django model default (blank
strings, zero hours, clock tries 1, null dates). -/
def defaultEntry : TimeEntry where
  year := 0
  ofc_name := ""
  xlc_operation := ""
  dt_end_cli_work_week := none
  work_date := none
  date_range := ""
  week_number := none
  week_year := none
  applicant_id := ""
  last_name := ""
  first_name := ""
  full_name := ""
  employee_type_id := ""
  shift_number := ""
  bu_dept_name := ""
  allocation_method := ""
  dt_time_start := none
  dt_time_end := none
  reg_hours := 0
  ot_hours := 0
  dt_hours := 0
  hol_wrk_hours := 0
  total_hours := 0
  clock_in_local := ""
  clock_in_tries := 1
  clock_in_method := ""
  clock_out_local := ""
  clock_out_tries := 1
  clock_out_method := ""
  entry_type := ""

/-- One ETLHistory audit row: year, final status (running, success or
failed), message, and records_processed (default 0). -/
structure ETLRecord where
  year : Int
  status : String
  message : String
  records_processed : Nat
deriving DecidableEq

/-- The DataUpload trigger record, reduced to the fields
process_uploaded_file reads. -/
structure DataUpload where
  year : Int
  replace_existing : Bool
  filename : String
deriving DecidableEq

/-- The database state owned by the core: the fact table and the
append-only audit table. -/
structure DBState where
  facts : List TimeEntry
  etl : List ETLRecord
deriving DecidableEq

/-! ## Raw tabular input (a parsed pandas DataFrame) -/

/-- One DataFrame cell.  `missing` is NaN/NaT; `text` a string value;
`number` a numeric value; `dateVal` a value that pandas to_datetime
parses to a timestamp (unparseable inputs are the other constructors:
with errors="coerce" they coerce to NaT, i.e. null). -/
inductive RawCell where
  | missing
  | text (s : String)
  | number (q : Rat)
  | dateVal (d : PyDate)
deriving DecidableEq

/-- A parsed DataFrame: column names plus rows of cells positionally
aligned with the header. -/
structure RawTable where
  cols : List String
  rows : List (List RawCell)
deriving DecidableEq

/-- The cell of a row under a named column: position of the first
column of that name in the header, if any. -/
def findCell (cols : List String) (row : List RawCell) (field : String) : Option RawCell :=
  ((cols.zip row).find? (fun p => p.1 = field)).map (fun p => p.2)

/-! ## Schema normalizer (services.py process_uploaded_file, steps
shared verbatim with sync_csv.py _sync_file) -/

/-- The CSV-to-model column alias table COLUMN_MAPPING of services.py
(sync_csv.py repeats the same dictionary inline). -/
def COLUMN_MAPPING : List (String × String) :=
  [("year", "year"),
   ("OfcName", "ofc_name"),
   ("Ofc_Name", "ofc_name"),
   ("XLC Operation", "xlc_operation"),
   ("XLC_Operation", "xlc_operation"),
   ("dtEndCliWorkWeek", "dt_end_cli_work_week"),
   ("Dt_End_CLI_Work_Week", "dt_end_cli_work_week"),
   ("WorkDate", "work_date"),
   ("Work_Date", "work_date"),
   ("Date Range", "date_range"),
   ("Date_Range", "date_range"),
   ("ApplicantID", "applicant_id"),
   ("Applicant_ID", "applicant_id"),
   ("LastName", "last_name"),
   ("Last_Name", "last_name"),
   ("FirstName", "first_name"),
   ("First_Name", "first_name"),
   ("FullName", "full_name"),
   ("Full_Name", "full_name"),
   ("EmployeeTypeID", "employee_type_id"),
   ("Employee_Type_ID", "employee_type_id"),
   ("ShiftNumber", "shift_number"),
   ("Shift_Number", "shift_number"),
   ("BUDeptName", "bu_dept_name"),
   ("BU_Dept_Name", "bu_dept_name"),
   ("Allocation_Method", "allocation_method"),
   ("dtTimeStart", "dt_time_start"),
   ("Dt_Time_Start", "dt_time_start"),
   ("dtTimeEnd", "dt_time_end"),
   ("Dt_Time_End", "dt_time_end"),
   ("RegHours", "reg_hours"),
   ("Reg_Hours", "reg_hours"),
   ("OTHours", "ot_hours"),
   ("OT_Hours", "ot_hours"),
   ("DTHours", "dt_hours"),
   ("DT_Hours", "dt_hours"),
   ("HolWrkHours", "hol_wrk_hours"),
   ("Hol_Wrk_Hours", "hol_wrk_hours"),
   ("Total Hours", "total_hours"),
   ("Total_Hours", "total_hours"),
   ("ClockIn_LOcal", "clock_in_local"),
   ("Clock_In_Local", "clock_in_local"),
   ("ClockIn_Tries", "clock_in_tries"),
   ("Clock_In_Tries", "clock_in_tries"),
   ("ClockIn_Method", "clock_in_method"),
   ("Clock_In_Method", "clock_in_method"),
   ("ClockOut_Local", "clock_out_local"),
   ("Clock_Out_Local", "clock_out_local"),
   ("ClockOut_Tries", "clock_out_tries"),
   ("Clock_Out_Tries", "clock_out_tries"),
   ("ClockOut_Method", "clock_out_method"),
   ("Clock_Out_Method", "clock_out_method"),
   ("EntryType", "entry_type"),
   ("Entry_Type", "entry_type")]

/-- pandas df.rename on one column name: mapped names are replaced,
unmapped names are kept. -/
def renameColumn (c : String) : String :=
  match COLUMN_MAPPING.find? (fun p => p.1 = c) with
  | some p => p.2
  | none => c

/-- The renamed header of a table (df.rename(columns=COLUMN_MAPPING)). -/
def renamedCols (t : RawTable) : List String :=
  t.cols.map renameColumn

/-- The model field names with a database column, as listed by
TimeEntry._meta.get_fields(); valid_cols keeps exactly the renamed
columns in this list.  Every column the pipeline subsequently reads is
in this list, so the column selection never hides a field lookup. -/
def model_fields : List String :=
  ["id", "year", "ofc_name", "xlc_operation", "dt_end_cli_work_week", "work_date",
   "date_range", "week_number", "week_year", "applicant_id", "last_name",
   "first_name", "full_name", "employee_type_id", "shift_number", "bu_dept_name",
   "allocation_method", "dt_time_start", "dt_time_end", "reg_hours", "ot_hours",
   "dt_hours", "hol_wrk_hours", "total_hours", "clock_in_local", "clock_in_tries",
   "clock_in_method", "clock_out_local", "clock_out_tries", "clock_out_method",
   "entry_type"]

/-- pd.to_datetime(col, errors="coerce") on a date column cell: a
parsed date value survives, anything else (missing or unparseable)
coerces to NaT, stored as null. -/
def coerceDate (c : Option RawCell) : Option PyDate :=
  match c with
  | some (RawCell.dateVal d) => some d
  | _ => none

/-- pd.to_numeric(col, errors="coerce").fillna(0) on a numeric column
cell: a numeric value survives, anything else (missing or unparseable)
coerces to NaN and is filled with 0.  Used for a column that is present
in the input; an absent column falls back to the model default. -/
def coerceNum (c : Option RawCell) : Rat :=
  match c with
  | some (RawCell.number q) => q
  | _ => 0

/-- col.fillna(empty) on a string column cell: only missing values are
replaced by the empty string, present values are kept (non-string
values keep their own representation). -/
def coerceStr (c : Option RawCell) : String :=
  match c with
  | some (RawCell.text s) => s
  | some (RawCell.number q) => toString q.num
  | some (RawCell.dateVal d) => toString d.ord
  | some RawCell.missing => ""
  | none => ""

/-- An untouched small-integer column (week_number / week_year when
present in the source instead of being derived): numeric cells pass
through, anything else is stored as null. -/
def coerceOptInt (c : Option RawCell) : Option Int :=
  match c with
  | some (RawCell.number q) => some q.floor
  | _ => none

/-- The per-row year: a numeric cell of a year column passes through
per row; when the table has no year column every row is assigned the
caller-supplied target year.  (A year column holding a non-numeric cell
would abort the run inside the store; that path is covered by the
exception oracle, not modelled cell by cell.) -/
def coerceYear (c : Option RawCell) (default : Int) : Int :=
  match c with
  | some (RawCell.number q) => q.floor
  | _ => default

/-- The normalization of one row, given the renamed header: rename has
been applied to the column names, the cells are the untouched row.
Mirrors the column-wise coercions of process_uploaded_file, which act
independently on each row, followed by to_dict and TimeEntry(**record);
fields whose column is absent take the TimeEntry model default. -/
def normalizeRow (cols : List String) (row : List RawCell) (year : Int) : TimeEntry :=
  { year := coerceYear (findCell cols row "year") year
    ofc_name := coerceStr (findCell cols row "ofc_name")
    xlc_operation := coerceStr (findCell cols row "xlc_operation")
    dt_end_cli_work_week := coerceDate (findCell cols row "dt_end_cli_work_week")
    work_date := coerceDate (findCell cols row "work_date")
    date_range := coerceStr (findCell cols row "date_range")
    week_number :=
      if "dt_end_cli_work_week" ∈ cols then
        (coerceDate (findCell cols row "dt_end_cli_work_week")).map
          (fun d => (isocalendar d).2.1)
      else coerceOptInt (findCell cols row "week_number")
    week_year :=
      if "dt_end_cli_work_week" ∈ cols then
        (coerceDate (findCell cols row "dt_end_cli_work_week")).map
          (fun d => (isocalendar d).1)
      else coerceOptInt (findCell cols row "week_year")
    applicant_id := coerceStr (findCell cols row "applicant_id")
    last_name := coerceStr (findCell cols row "last_name")
    first_name := coerceStr (findCell cols row "first_name")
    full_name := coerceStr (findCell cols row "full_name")
    employee_type_id := coerceStr (findCell cols row "employee_type_id")
    shift_number := coerceStr (findCell cols row "shift_number")
    bu_dept_name := coerceStr (findCell cols row "bu_dept_name")
    allocation_method := coerceStr (findCell cols row "allocation_method")
    dt_time_start := coerceDate (findCell cols row "dt_time_start")
    dt_time_end := coerceDate (findCell cols row "dt_time_end")
    reg_hours := coerceNum (findCell cols row "reg_hours")
    ot_hours := coerceNum (findCell cols row "ot_hours")
    dt_hours := coerceNum (findCell cols row "dt_hours")
    hol_wrk_hours := coerceNum (findCell cols row "hol_wrk_hours")
    total_hours := coerceNum (findCell cols row "total_hours")
    clock_in_local := coerceStr (findCell cols row "clock_in_local")
    clock_in_tries :=
      match findCell cols row "clock_in_tries" with
      | none => 1
      | c => coerceNum c
    clock_in_method := coerceStr (findCell cols row "clock_in_method")
    clock_out_local := coerceStr (findCell cols row "clock_out_local")
    clock_out_tries :=
      match findCell cols row "clock_out_tries" with
      | none => 1
      | c => coerceNum c
    clock_out_method := coerceStr (findCell cols row "clock_out_method")
    entry_type := coerceStr (findCell cols row "entry_type") }

/-- The full normalization of a parsed table for a target year: rename
columns, select model columns, coerce column types, fill defaults,
ensure a year column, derive the ISO week columns, and build one
TimeEntry per row (steps of process_uploaded_file between the rename
and bulk_create). -/
def normalizeTable (t : RawTable) (year : Int) : List TimeEntry :=
  t.rows.map (fun row => normalizeRow (renamedCols t) row year)

/-! ## Ingestion pipeline (services.py process_uploaded_file and
sync_csv.py Command._sync_file) -/

/-- Exception oracle for one ingestion run: either the store and the
reader behave (ok), or reading the file raises with the given message,
or the store raises with the given message inside the
delete/normalize/insert block.  In _sync_file the delete is the first
statement of that block, so a store exception there is observed after
the delete has been issued. -/
inductive ExcPoint where
  | ok
  | readFail (msg : String)
  | mutateFail (msg : String)
deriving DecidableEq

/-- services.py process_uploaded_file.  Returns the final database
state plus the (success, message, records_processed) triple.  The ETL
audit row is created before the transaction.atomic block and finalized
after it; the delete runs only when upload.replace_existing is set; the
whole delete+insert block is atomic, so a store exception rolls the
fact table back while the audit row is finalized as failed. -/
def process_uploaded_file (db : DBState) (upload : DataUpload) (t : RawTable)
    (exc : ExcPoint) : DBState × (Bool × String × Nat) :=
  match exc with
  | ExcPoint.readFail msg =>
      (db, (false, "Error processing file: " ++ msg, 0))
  | ExcPoint.mutateFail msg =>
      if t.rows.isEmpty then
        (db, (false, "Uploaded file is empty", 0))
      else
        ({ facts := db.facts,
           etl := db.etl ++ [{ year := upload.year, status := "failed",
                               message := msg, records_processed := 0 }] },
         (false, "Error processing file: " ++ msg, 0))
  | ExcPoint.ok =>
      if t.rows.isEmpty then
        (db, (false, "Uploaded file is empty", 0))
      else
        ({ facts :=
             (if upload.replace_existing then
                db.facts.filter (fun f => f.year ≠ upload.year)
              else db.facts) ++ normalizeTable t upload.year,
           etl := db.etl ++ [{ year := upload.year, status := "success",
                               message := "Successfully imported " ++
                                 toString (normalizeTable t upload.year).length ++
                                 " records from upload",
                               records_processed := (normalizeTable t upload.year).length }] },
         (true, "Successfully imported " ++
            toString (normalizeTable t upload.year).length ++ " records",
          (normalizeTable t upload.year).length))

/-- The year detection of _sync_file: the first row of a year column if
the raw table has one, otherwise the four-digit year found in the
parent directory or file name (passed in as pathYear), otherwise 2025. -/
def detectYear (t : RawTable) (pathYear : Option Int) : Int :=
  match t.rows.head? with
  | some row =>
      match findCell t.cols row "year" with
      | some (RawCell.number q) => q.floor
      | _ => pathYear.getD 2025
  | none => pathYear.getD 2025

/-- The observable outcome of _sync_file: a read error message printed
and the file skipped, an empty-file warning and the file skipped, a
successful import of n rows, or a CommandError raised to the caller. -/
inductive SyncOutcome where
  | readError (msg : String)
  | emptySkip
  | ok (n : Nat)
  | commandError (msg : String)
deriving DecidableEq

/-- sync_csv.py Command._sync_file.  No transaction wraps the body: the
year delete is issued first and unconditionally (the clear flag changes
only the progress message), so a store exception later in the block
leaves the year already deleted while the audit row is finalized as
failed and a CommandError propagates. -/
def sync_file (db : DBState) (t : RawTable) (clear : Bool) (pathYear : Option Int)
    (exc : ExcPoint) : DBState × SyncOutcome :=
  match exc with
  | ExcPoint.readFail msg =>
      (db, SyncOutcome.readError ("Error reading: " ++ msg))
  | ExcPoint.mutateFail msg =>
      if t.rows.isEmpty then
        (db, SyncOutcome.emptySkip)
      else
        ({ facts := db.facts.filter (fun f => f.year ≠ detectYear t pathYear),
           etl := db.etl ++ [{ year := detectYear t pathYear, status := "failed",
                               message := msg, records_processed := 0 }] },
         SyncOutcome.commandError ("Error importing data: " ++ msg))
  | ExcPoint.ok =>
      if t.rows.isEmpty then
        (db, SyncOutcome.emptySkip)
      else
        ({ facts := db.facts.filter (fun f => f.year ≠ detectYear t pathYear)
             ++ normalizeTable t (detectYear t pathYear),
           etl := db.etl ++ [{ year := detectYear t pathYear, status := "success",
                               message := "Successfully imported " ++
                                 toString (normalizeTable t (detectYear t pathYear)).length ++
                                 " records",
                               records_processed :=
                                 (normalizeTable t (detectYear t pathYear)).length }] },
         SyncOutcome.ok (normalizeTable t (detectYear t pathYear)).length)

/-! ## KPI calculator (kpis/calculator.py, spec-modelled) -/

/-- Count of facts in a collection carrying a given entry
classification. -/
def countClass (facts : List TimeEntry) (et : String) : Nat :=
  (facts.filter (fun f => f.entry_type = et)).length

/-- Modelled from the spec: the file kpis/calculator.py (class
KPICalculator) is not under src, only its callers are.  Spec section
4.4: every rate is a percentage rounded to one decimal place, computed
as subset_count / total_count times 100, and defined as 0 when
total_count is 0.  A one-decimal percentage is represented exactly as a
rational with denominator 10, rounding to the nearest tenth (halves
up). -/
def rate1dp (subset total : Nat) : Rat :=
  if total = 0 then 0
  else ((round (((subset : Rat) / (total : Rat)) * 100 * 10) : Int) : Rat) / 10

/-- Modelled from the spec: finger_rate of KPICalculator. -/
def finger_rate (facts : List TimeEntry) : Rat :=
  rate1dp (countClass facts "Finger") facts.length

/-- Modelled from the spec: provisional_rate of KPICalculator. -/
def provisional_rate (facts : List TimeEntry) : Rat :=
  rate1dp (countClass facts "Provisional Entry") facts.length

/-- Modelled from the spec: write_in_rate of KPICalculator. -/
def write_in_rate (facts : List TimeEntry) : Rat :=
  rate1dp (countClass facts "Write-In") facts.length

/-- Modelled from the spec: missing_co_rate of KPICalculator. -/
def missing_co_rate (facts : List TimeEntry) : Rat :=
  rate1dp (countClass facts "Missing c/o") facts.length

/-! ## Report aggregation (reports/generators.py) -/

/-- BSTTReportGenerator.ENROLLMENT_THRESHOLD. -/
def ENROLLMENT_THRESHOLD : Int := 2

/-- BSTTReportGenerator._calculate_enrollment_status: the Yes flag when
the provisional count strictly exceeds the threshold, blank
otherwise. -/
def calculate_enrollment_status (provisional_count : Int) : String :=
  if ENROLLMENT_THRESHOLD < provisional_count then "Yes" else ""

/-- Number of provisional entries of one employee in the collection
(the Total column of the Prov sheet and the Provisional Count column of
the Provisional sheet both reduce to this count). -/
def provisionalCount (facts : List TimeEntry) (name : String) : Nat :=
  (facts.filter (fun f => f.full_name = name ∧ f.entry_type = "Provisional Entry")).length

/-- The enrollment flag the report writes for one employee. -/
def enrollmentFlag (facts : List TimeEntry) (name : String) : String :=
  calculate_enrollment_status (provisionalCount facts name)

/-- A cell of the All pivot sheet: count of facts of one employee
carrying one entry classification. -/
def countEntryType (facts : List TimeEntry) (name et : String) : Nat :=
  (facts.filter (fun f => f.full_name = name ∧ f.entry_type = et)).length

/-- The four standard entry classifications whose columns the All sheet
always carries. -/
def standard_entry_types : List String :=
  ["Finger", "Missing c/o", "Provisional Entry", "Write-In"]

/-- The Grand Total column of the All sheet: the sum over the four
standard classification columns only (pivot[entry_types].sum(axis=1)). -/
def grandTotal (facts : List TimeEntry) (name : String) : Nat :=
  countEntryType facts name "Finger" + countEntryType facts name "Missing c/o"
    + countEntryType facts name "Provisional Entry" + countEntryType facts name "Write-In"

/-- Count of facts of one employee whose classification is none of the
four standard ones (they fall outside every standard pivot column). -/
def countOther (facts : List TimeEntry) (name : String) : Nat :=
  (facts.filter (fun f => f.full_name = name ∧ f.entry_type ∉ standard_entry_types)).length

/-- Total count of facts of one employee. -/
def countName (facts : List TimeEntry) (name : String) : Nat :=
  (facts.filter (fun f => f.full_name = name)).length

/-- The entry-type columns of the intermediate pivot_table built by
_write_all_pivot: one per distinct entry classification observed in the
data, plus a zero column for each standard classification not observed.
This is the pivot before the final column selection; it is not what the
sheet shows. -/
def pivotTableColumns (facts : List TimeEntry) : List String :=
  (facts.map (fun f => f.entry_type)).dedup
    ++ standard_entry_types.filter
        (fun et => et ∉ (facts.map (fun f => f.entry_type)).dedup)

/-- The columns actually written to the All sheet: the column_order
selection of _write_all_pivot keeps Employee, the four standard entry
types and Grand Total — restricted to those present in the pivot — and
thereby drops every non-standard entry-type column before to_excel. -/
def allSheetColumns (facts : List TimeEntry) : List String :=
  (["Employee"] ++ standard_entry_types ++ ["Grand Total"]).filter
    (fun c => c ∈ ("Employee" :: (pivotTableColumns facts ++ ["Grand Total"])))

/-! ## Shared concrete data for witnesses and counterexamples -/

/-- A fact of year 2025 with default field values. -/
def entry2025 : TimeEntry :=
  { defaultEntry with year := 2025 }

/-- A store holding one fact of year 2025 and an empty audit log. -/
def dbOne : DBState :=
  { facts := [entry2025], etl := [] }

/-- An empty store. -/
def emptyDB : DBState :=
  { facts := [], etl := [] }

/-- A one-row, one-column source table with no year column. -/
def tblOne : RawTable :=
  { cols := ["RegHours"], rows := [[RawCell.number 1]] }

/-- An upload for year 2025 with the replace flag off. -/
def uploadNoReplace : DataUpload :=
  { year := 2025, replace_existing := false, filename := "data.csv" }

/-- A collection holding exactly one Finger fact. -/
def fingerOnly : List TimeEntry :=
  [{ defaultEntry with entry_type := "Finger", full_name := "A" }]

/-- An 80-fact collection whose four classification counts are 3, 7, 11
and 59: each unrounded rate ends in five thousandths of a percent, so
every rounding steps up by half a tenth. -/
def ratesSkew : List TimeEntry :=
  List.replicate 3 { defaultEntry with entry_type := "Finger" }
    ++ List.replicate 7 { defaultEntry with entry_type := "Provisional Entry" }
    ++ List.replicate 11 { defaultEntry with entry_type := "Write-In" }
    ++ List.replicate 59 { defaultEntry with entry_type := "Missing c/o" }

/-- A collection whose single fact carries a non-standard entry
classification. -/
def exOther : List TimeEntry :=
  [{ defaultEntry with full_name := "B", entry_type := "Biometric Badge" }]

/-- A one-row table whose date cell does not parse while the name cell
does. -/
def tblBadDate : RawTable :=
  { cols := ["dtEndCliWorkWeek", "FullName"],
    rows := [[RawCell.text "bad date", RawCell.text "Jane"]] }

/-! ## Calendar lemmas -/

/-- The Monday opening ISO week 1 is a Monday (ordinals congruent to 1
modulo 7 are Mondays). -/
theorem isoweek1monday_is_monday (y : Int) : (isoweek1monday y - 1) % 7 = 0 := by
  simp only [isoweek1monday, jan1_ordinal, days_before_year]
  split <;> omega

/-- The Monday opening ISO week 1 lies within three days of January 1
(week 1 contains January 4). -/
theorem isoweek1monday_near_jan1 (y : Int) :
    jan1_ordinal y - 3 ≤ isoweek1monday y ∧ isoweek1monday y ≤ jan1_ordinal y + 3 := by
  simp only [isoweek1monday, jan1_ordinal, days_before_year]
  split <;> omega

/-- The Monday that get_week_display_date derives from January 4 is the
same day _isoweek1monday computes from January 1. -/
theorem iso_year_start_eq_week1monday (y : Int) :
    (jan1_ordinal y + 3) - (isoweekday (jan1_ordinal y + 3) - 1) = isoweek1monday y := by
  simp only [isoweek1monday, isoweekday, jan1_ordinal, days_before_year]
  split <;> omega

/-- get_week_display_date returns the sixth day after the Monday of the
requested ISO week, i.e. its Sunday. -/
theorem get_week_display_date_eq (y w : Int) :
    get_week_display_date y w = isoWeekMonday y w + 6 := by
  have h := iso_year_start_eq_week1monday y
  simp only [get_week_display_date, isoWeekMonday]
  omega

/-- Claim C3: for every non-null valid date d, the week aligner returns
a pair (w, y) such that d falls within ISO week w of ISO year y (d lies
in the seven-day span opening at the Monday of that week), and the
inverse function applied to (y, w) returns the Sunday of that same ISO
week, namely the Monday of ISO week 1 of year y plus (w - 1) weeks plus
6 days. -/
theorem extract_week_number_spec (d : PyDate) (h1 : 1 ≤ d.year)
    (h2 : jan1_ordinal d.year ≤ d.ord) (h3 : d.ord < jan1_ordinal (d.year + 1)) :
    ∀ w y : Int, extract_week_number (some d) = (some w, some y) →
      isoWeekMonday y w ≤ d.ord ∧ d.ord ≤ isoWeekMonday y w + 6 ∧
      (isoWeekMonday y w - 1) % 7 = 0 ∧
      get_week_display_date y w = isoWeekMonday y w + 6 := by
  intro w y h
  have hnear := isoweek1monday_near_jan1 (d.year + 1)
  have hmonA := isoweek1monday_is_monday (d.year - 1)
  have hmonB := isoweek1monday_is_monday d.year
  have hmonC := isoweek1monday_is_monday (d.year + 1)
  simp only [extract_week_number, isocalendar] at h
  split_ifs at h with hc1 hc2
  · simp only [Prod.mk.injEq, Option.some.injEq] at h
    obtain ⟨hw, hy⟩ := h
    subst hw; subst hy
    refine ⟨?_, ?_, ?_, get_week_display_date_eq _ _⟩
    · simp only [isoWeekMonday]; omega
    · simp only [isoWeekMonday]; omega
    · simp only [isoWeekMonday]; omega
  · simp only [Prod.mk.injEq, Option.some.injEq] at h
    obtain ⟨hw, hy⟩ := h
    subst hw; subst hy
    refine ⟨?_, ?_, ?_, get_week_display_date_eq _ _⟩
    · simp only [isoWeekMonday]; omega
    · simp only [isoWeekMonday]; omega
    · simp only [isoWeekMonday]; omega
  · simp only [Prod.mk.injEq, Option.some.injEq] at h
    obtain ⟨hw, hy⟩ := h
    subst hw; subst hy
    refine ⟨?_, ?_, ?_, get_week_display_date_eq _ _⟩
    · simp only [isoWeekMonday]; omega
    · simp only [isoWeekMonday]; omega
    · simp only [isoWeekMonday]; omega

/-- Witness for claim C3 at the concrete date 2025-01-05 (the Sunday
closing ISO week 1 of 2025). -/
theorem extract_week_number_spec_witness :
    isoWeekMonday 2025 1 ≤ jan1_ordinal 2025 + 4 ∧
    jan1_ordinal 2025 + 4 ≤ isoWeekMonday 2025 1 + 6 ∧
    (isoWeekMonday 2025 1 - 1) % 7 = 0 ∧
    get_week_display_date 2025 1 = isoWeekMonday 2025 1 + 6 :=
  extract_week_number_spec (PyDate.mk 2025 (jan1_ordinal 2025 + 4))
    (by decide) (by decide) (by decide) 1 2025 (by decide)

/-! ## List helpers about year filtering -/

/-- Rows surviving a delete of year y contain no rows of year y. -/
theorem filter_ne_filter_eq_nil (l : List TimeEntry) (y : Int) :
    (l.filter (fun f => f.year ≠ y)).filter (fun f => f.year = y) = [] := by
  induction l with
  | nil => rfl
  | cons f l ih => by_cases h : f.year = y <;> simp [List.filter_cons, h, ih]

/-- Deleting year y twice deletes it once. -/
theorem filter_ne_idem (l : List TimeEntry) (y : Int) :
    (l.filter (fun f => f.year ≠ y)).filter (fun f => f.year ≠ y)
      = l.filter (fun f => f.year ≠ y) := by
  induction l with
  | nil => rfl
  | cons f l ih => by_cases h : f.year = y <;> simp [List.filter_cons, h, ih]

/-- Deleting year y from rows that all carry year y deletes
everything. -/
theorem filter_ne_eq_nil_of_all_eq (l : List TimeEntry) (y : Int)
    (h : ∀ f ∈ l, f.year = y) : l.filter (fun f => f.year ≠ y) = [] := by
  induction l with
  | nil => rfl
  | cons f l ih =>
      rw [List.filter_eq_nil_iff]
      intro g hg
      simp [h g hg]

/-! ## Claims about the ingestion pipeline -/

/-- Claim C1 (amended): when the store raises during the
delete/normalize/insert block, the upload pipeline finalizes the audit
record as failed with the exception text and rolls the fact table back
unchanged (transaction.atomic); the sync command also finalizes the
audit record as failed with the exception text, but runs without a
transaction, so the delete of the target year issued at the start of
the block is not rolled back. -/
theorem ingestion_mutation_failure_states (db : DBState) (u : DataUpload)
    (cols : List String) (r : List RawCell) (rs : List (List RawCell))
    (msg : String) (clear : Bool) (pathYear : Option Int) :
    process_uploaded_file db u (RawTable.mk cols (r :: rs)) (ExcPoint.mutateFail msg)
      = ({ facts := db.facts,
           etl := db.etl ++ [{ year := u.year, status := "failed", message := msg,
                               records_processed := 0 }] },
         (false, "Error processing file: " ++ msg, 0)) ∧
    sync_file db (RawTable.mk cols (r :: rs)) clear pathYear (ExcPoint.mutateFail msg)
      = ({ facts := db.facts.filter
             (fun f => f.year ≠ detectYear (RawTable.mk cols (r :: rs)) pathYear),
           etl := db.etl ++ [{ year := detectYear (RawTable.mk cols (r :: rs)) pathYear,
                               status := "failed", message := msg, records_processed := 0 }] },
         SyncOutcome.commandError ("Error importing data: " ++ msg)) := by
  constructor <;> simp [process_uploaded_file, sync_file]

/-- Counterexample to claim C1 as stated: a store exception during the
insert of a sync run leaves the year already deleted — the fact set for
the target year is not left as it was before the attempt. -/
theorem sync_mutation_failure_loses_year_data :
    (sync_file dbOne tblOne false (some 2025) (ExcPoint.mutateFail "insert failed")).1.facts = []
    ∧ dbOne.facts = [entry2025]
    ∧ (sync_file dbOne tblOne false (some 2025)
        (ExcPoint.mutateFail "insert failed")).2
        = SyncOutcome.commandError "Error importing data: insert failed" := by
  decide

/-- Claim C2 (amended): the sync command deletes the facts of the
target year unconditionally — the clear flag does not change its
behavior at all — and after a successful sync run the fact set for the
detected year is exactly the rows of that year derived from the input;
the upload pipeline instead deletes only when replace_existing is set,
and with the flag off it appends the new rows to the existing facts. -/
theorem sync_replace_for_year_semantics (db : DBState) (cols : List String)
    (r : List RawCell) (rs : List (List RawCell)) (clear : Bool)
    (pathYear : Option Int) (y : Int) (fn : String) :
    ((sync_file db (RawTable.mk cols (r :: rs)) clear pathYear ExcPoint.ok).1.facts.filter
        (fun f => f.year = detectYear (RawTable.mk cols (r :: rs)) pathYear))
      = (normalizeTable (RawTable.mk cols (r :: rs))
            (detectYear (RawTable.mk cols (r :: rs)) pathYear)).filter
          (fun f => f.year = detectYear (RawTable.mk cols (r :: rs)) pathYear) ∧
    sync_file db (RawTable.mk cols (r :: rs)) true pathYear ExcPoint.ok
      = sync_file db (RawTable.mk cols (r :: rs)) false pathYear ExcPoint.ok ∧
    (process_uploaded_file db (DataUpload.mk y false fn) (RawTable.mk cols (r :: rs))
        ExcPoint.ok).1.facts = db.facts ++ normalizeTable (RawTable.mk cols (r :: rs)) y := by
  refine ⟨?_, rfl, ?_⟩
  · simp [sync_file, List.filter_append, filter_ne_filter_eq_nil]
  · simp [process_uploaded_file]

/-- Counterexample to claim C2 as stated: an upload run with the
replace flag off keeps the pre-existing fact of the target year, so the
fact set for the year is not exactly the rows derived from the new
input (two facts for 2025, one row in the file). -/
theorem upload_without_replace_keeps_old_facts :
    ((process_uploaded_file dbOne uploadNoReplace tblOne ExcPoint.ok).1.facts.filter
        (fun f => f.year = 2025)).length = 2 ∧
    (normalizeTable tblOne 2025).length = 1 ∧
    uploadNoReplace.year = 2025 ∧ uploadNoReplace.replace_existing = false := by
  decide

/-- Claim C5 (amended): ingestion of an empty input returns
success=false with the empty-input message and zero records processed,
writes no facts, deletes nothing — and creates no audit record at all,
because the emptiness check precedes the creation of the audit row
(the sync command likewise skips the file before opening an audit
row). -/
theorem empty_input_short_circuits (db : DBState) (u : DataUpload) (cols : List String)
    (clear : Bool) (pathYear : Option Int) :
    process_uploaded_file db u (RawTable.mk cols []) ExcPoint.ok
      = (db, (false, "Uploaded file is empty", 0)) ∧
    sync_file db (RawTable.mk cols []) clear pathYear ExcPoint.ok
      = (db, SyncOutcome.emptySkip) := by
  exact ⟨rfl, rfl⟩

/-- Counterexample to claim C5 as stated: after ingesting an empty
file, the audit table is still empty — no audit record with status
failed exists. -/
theorem empty_upload_creates_no_audit_record :
    (process_uploaded_file emptyDB uploadNoReplace (RawTable.mk ["year"] []) ExcPoint.ok).1.etl
      = []
    ∧ (process_uploaded_file emptyDB uploadNoReplace (RawTable.mk ["year"] []) ExcPoint.ok).2
      = (false, "Uploaded file is empty", 0) := by
  decide

/-- Claim C6 (amended): rerunning the upload pipeline with the same
source table and target year is idempotent on the fact set provided the
replace flag is set and every normalized row carries the target year
(as when the table has no year column); each invocation appends exactly
one audit record.  Without the replace flag the second run duplicates
the fact set. -/
theorem upload_replace_reimport_idempotent (db : DBState) (y : Int) (fn : String)
    (t : RawTable) (hne : t.rows ≠ []) (hy : ∀ f ∈ normalizeTable t y, f.year = y) :
    (process_uploaded_file (process_uploaded_file db (DataUpload.mk y true fn) t ExcPoint.ok).1
        (DataUpload.mk y true fn) t ExcPoint.ok).1.facts
      = (process_uploaded_file db (DataUpload.mk y true fn) t ExcPoint.ok).1.facts ∧
    (process_uploaded_file db (DataUpload.mk y true fn) t ExcPoint.ok).1.etl.length
      = db.etl.length + 1 ∧
    (process_uploaded_file (process_uploaded_file db (DataUpload.mk y true fn) t ExcPoint.ok).1
        (DataUpload.mk y true fn) t ExcPoint.ok).1.etl.length = db.etl.length + 2 := by
  have hE : t.rows.isEmpty = false := by
    cases hrows : t.rows with
    | nil => exact absurd hrows hne
    | cons a l => rfl
  have h0 := filter_ne_eq_nil_of_all_eq (normalizeTable t y) y hy
  refine ⟨?_, ?_, ?_⟩ <;>
    simp [process_uploaded_file, hE, List.filter_append, filter_ne_idem, h0]
  exact hy

/-- Witness for claim C6 at a concrete store, upload and table. -/
theorem upload_replace_reimport_idempotent_witness :
    (process_uploaded_file
        (process_uploaded_file dbOne (DataUpload.mk 2025 true "f.csv") tblOne ExcPoint.ok).1
        (DataUpload.mk 2025 true "f.csv") tblOne ExcPoint.ok).1.facts
      = (process_uploaded_file dbOne (DataUpload.mk 2025 true "f.csv") tblOne ExcPoint.ok).1.facts ∧
    (process_uploaded_file dbOne (DataUpload.mk 2025 true "f.csv") tblOne ExcPoint.ok).1.etl.length
      = dbOne.etl.length + 1 ∧
    (process_uploaded_file
        (process_uploaded_file dbOne (DataUpload.mk 2025 true "f.csv") tblOne ExcPoint.ok).1
        (DataUpload.mk 2025 true "f.csv") tblOne ExcPoint.ok).1.etl.length
      = dbOne.etl.length + 2 :=
  upload_replace_reimport_idempotent dbOne 2025 "f.csv" tblOne (by decide) (by decide)

/-- Counterexample to claim C6 as stated: with the replace flag off,
running the upload pipeline twice on the same one-row table doubles the
fact set instead of reproducing it, while the audit log gains one
record per run. -/
theorem reimport_without_replace_duplicates_facts :
    ((process_uploaded_file (process_uploaded_file emptyDB uploadNoReplace tblOne ExcPoint.ok).1
        uploadNoReplace tblOne ExcPoint.ok).1.facts).length = 2 ∧
    ((process_uploaded_file emptyDB uploadNoReplace tblOne ExcPoint.ok).1.facts).length = 1 ∧
    (process_uploaded_file (process_uploaded_file emptyDB uploadNoReplace tblOne ExcPoint.ok).1
        uploadNoReplace tblOne ExcPoint.ok).1.etl.length = 2 := by
  decide

/-- Claim C9: the upload pipeline is total at its interface — it
returns a (success, message, records) triple for every input and
exception point, and whenever an internal exception occurs (reading the
file, or the store raising during the mutation block) the triple is
(false, a message carrying the exception text, 0). -/
theorem upload_internal_exception_result (db : DBState) (u : DataUpload) (t : RawTable)
    (msg : String) (cols : List String) (r : List RawCell) (rs : List (List RawCell)) :
    (process_uploaded_file db u t (ExcPoint.readFail msg)).2
      = (false, "Error processing file: " ++ msg, 0) ∧
    (process_uploaded_file db u (RawTable.mk cols (r :: rs)) (ExcPoint.mutateFail msg)).2
      = (false, "Error processing file: " ++ msg, 0) := by
  constructor <;> simp [process_uploaded_file]

/-! ## Rate lemmas (claim C4) -/

/-- A one-decimal percentage is never negative. -/
theorem rate1dp_nonneg (s t : Nat) : 0 ≤ rate1dp s t := by
  unfold rate1dp
  split
  · exact le_refl 0
  · have h1 : (0 : Int) ≤ round (((s : Rat) / (t : Rat)) * 100 * 10) := by
      rw [round_eq]
      exact Int.le_floor.mpr (by positivity)
    have h2 : (0 : Rat) ≤ ((round (((s : Rat) / (t : Rat)) * 100 * 10) : Int) : Rat) := by
      exact_mod_cast h1
    exact div_nonneg h2 (by norm_num)

/-- A one-decimal percentage of a subset is at most 100. -/
theorem rate1dp_le_100 (s t : Nat) (h : s ≤ t) : rate1dp s t ≤ 100 := by
  unfold rate1dp
  split
  · norm_num
  · rename_i ht
    have ht' : (0 : Rat) < (t : Rat) := by exact_mod_cast Nat.pos_of_ne_zero ht
    have hdiv : (s : Rat) / (t : Rat) ≤ 1 :=
      div_le_one_of_le (by exact_mod_cast h) (le_of_lt ht')
    have hq : ((s : Rat) / (t : Rat)) * 100 * 10 + 1 / 2 ≤ 2001 / 2 := by nlinarith
    have hr : round (((s : Rat) / (t : Rat)) * 100 * 10) ≤ 1000 := by
      rw [round_eq]
      calc ⌊((s : Rat) / (t : Rat)) * 100 * 10 + 1 / 2⌋ ≤ ⌊(2001 : Rat) / 2⌋ :=
            Int.floor_le_floor hq
        _ = 1000 := by norm_num
    have hr' : ((round (((s : Rat) / (t : Rat)) * 100 * 10) : Int) : Rat) ≤ 1000 := by
      exact_mod_cast hr
    calc ((round (((s : Rat) / (t : Rat)) * 100 * 10) : Int) : Rat) / 10
        ≤ 1000 / 10 := (div_le_div_right (by norm_num : (0 : Rat) < 10)).mpr hr'
      _ = 100 := by norm_num

/-- A one-decimal percentage exceeds the unrounded percentage by at
most a half tenth. -/
theorem rate1dp_le_unrounded_add (s t : Nat) :
    rate1dp s t ≤ ((s : Rat) / (t : Rat)) * 100 + 1 / 20 := by
  unfold rate1dp
  split
  · rename_i ht
    subst ht
    norm_num
  · have hfl : ((round (((s : Rat) / (t : Rat)) * 100 * 10) : Int) : Rat)
        ≤ ((s : Rat) / (t : Rat)) * 100 * 10 + 1 / 2 := by
      rw [round_eq]
      exact_mod_cast Int.floor_le (((s : Rat) / (t : Rat)) * 100 * 10 + 1 / 2)
    linarith

/-- A one-decimal percentage collapses to 0 exactly when the unrounded
percentage is below one half of a tenth, i.e. when 2000 times the
subset count is below the total count. -/
theorem rate1dp_eq_zero_iff (s t : Nat) (ht : t ≠ 0) :
    rate1dp s t = 0 ↔ 2000 * s < t := by
  have ht' : (0 : Rat) < (t : Rat) := by exact_mod_cast Nat.pos_of_ne_zero ht
  have hq : ((s : Rat) / (t : Rat)) * 100 * 10 = (s : Rat) * 1000 / (t : Rat) := by
    ring
  unfold rate1dp
  rw [if_neg ht, div_eq_zero_iff]
  simp only [Int.cast_eq_zero, OfNat.ofNat_ne_zero, or_false]
  rw [round_eq, Int.floor_eq_iff, hq]
  constructor
  · rintro ⟨-, h2⟩
    have h3 : (s : Rat) * 1000 / (t : Rat) < 1 / 2 := by
      push_cast at h2
      linarith
    rw [div_lt_iff ht'] at h3
    have h4 : (2000 : Rat) * (s : Rat) < (t : Rat) := by linarith
    exact_mod_cast h4
  · intro h2
    have h2' : (2000 : Rat) * (s : Rat) < (t : Rat) := by exact_mod_cast h2
    have h3 : (s : Rat) * 1000 < 1 / 2 * (t : Rat) := by linarith
    have h4 := (div_lt_iff ht').mpr h3
    constructor
    · push_cast
      positivity
    · push_cast
      linarith

/-! ## Counting lemmas -/

/-- Classification count over a cons. -/
theorem countClass_cons (f : TimeEntry) (l : List TimeEntry) (et : String) :
    countClass (f :: l) et = (if f.entry_type = et then 1 else 0) + countClass l et := by
  by_cases h : f.entry_type = et <;> simp [countClass, List.filter_cons, h, Nat.add_comm]

/-- The four standard classification counts never exceed the size of
the collection: each fact carries one entry classification. -/
theorem four_counts_le_length (l : List TimeEntry) :
    countClass l "Finger" + countClass l "Provisional Entry" + countClass l "Write-In"
      + countClass l "Missing c/o" ≤ l.length := by
  induction l with
  | nil => simp [countClass]
  | cons f l ih =>
      rw [countClass_cons, countClass_cons, countClass_cons, countClass_cons, List.length_cons]
      split_ifs <;> first | omega | simp_all

/-- Per-employee pivot cell count over a cons. -/
theorem countEntryType_cons (f : TimeEntry) (l : List TimeEntry) (name et : String) :
    countEntryType (f :: l) name et
      = (if f.full_name = name ∧ f.entry_type = et then 1 else 0) + countEntryType l name et := by
  by_cases h : f.full_name = name ∧ f.entry_type = et <;>
    simp [countEntryType, List.filter_cons, h, Nat.add_comm]

/-- Non-standard-classification count of an employee over a cons. -/
theorem countOther_cons (f : TimeEntry) (l : List TimeEntry) (name : String) :
    countOther (f :: l) name
      = (if f.full_name = name ∧ f.entry_type ∉ standard_entry_types then 1 else 0)
        + countOther l name := by
  by_cases h : f.full_name = name ∧ f.entry_type ∉ standard_entry_types <;>
    simp [countOther, List.filter_cons, h, Nat.add_comm]

/-- Total count of an employee over a cons. -/
theorem countName_cons (f : TimeEntry) (l : List TimeEntry) (name : String) :
    countName (f :: l) name
      = (if f.full_name = name then 1 else 0) + countName l name := by
  by_cases h : f.full_name = name <;> simp [countName, List.filter_cons, h, Nat.add_comm]

/-- The Grand Total of an employee plus the count of that employee's
facts with a non-standard classification is the total count of the
employee's facts. -/
theorem grand_total_partition (facts : List TimeEntry) (name : String) :
    grandTotal facts name + countOther facts name = countName facts name := by
  induction facts with
  | nil => rfl
  | cons f l ih =>
      unfold grandTotal at ih ⊢
      rw [countEntryType_cons, countEntryType_cons, countEntryType_cons, countEntryType_cons,
        countOther_cons, countName_cons]
      split_ifs <;>
        first
          | omega
          | (simp_all [standard_entry_types])
          | (simp_all [standard_entry_types]; omega)

/-! ## Claims about the KPI rates and the report -/

/-- Claim C4 (amended, spec-modelled calculator): each compliance rate
equals the matching classification count over the total count times
100 rounded to one decimal, is 0 when the total is 0, and lies in
[0, 100]; the four rates sum to at most 100.2 — rounding each rate to
one decimal can push the sum above 100 by up to a fifth — and a rate is
0 exactly when the unrounded percentage is below one twentieth of a
percent (in particular whenever the classification count is 0). -/
theorem compliance_rates_spec (facts : List TimeEntry) (h : facts ≠ []) :
    finger_rate facts = rate1dp (countClass facts "Finger") facts.length ∧
    provisional_rate facts = rate1dp (countClass facts "Provisional Entry") facts.length ∧
    write_in_rate facts = rate1dp (countClass facts "Write-In") facts.length ∧
    missing_co_rate facts = rate1dp (countClass facts "Missing c/o") facts.length ∧
    (∀ s : Nat, rate1dp s 0 = 0) ∧
    (0 ≤ finger_rate facts ∧ finger_rate facts ≤ 100) ∧
    (0 ≤ provisional_rate facts ∧ provisional_rate facts ≤ 100) ∧
    (0 ≤ write_in_rate facts ∧ write_in_rate facts ≤ 100) ∧
    (0 ≤ missing_co_rate facts ∧ missing_co_rate facts ≤ 100) ∧
    finger_rate facts + provisional_rate facts + write_in_rate facts + missing_co_rate facts
      ≤ 100 + 1 / 5 ∧
    (finger_rate facts = 0 ↔ 2000 * countClass facts "Finger" < facts.length) ∧
    (provisional_rate facts = 0 ↔ 2000 * countClass facts "Provisional Entry" < facts.length) ∧
    (write_in_rate facts = 0 ↔ 2000 * countClass facts "Write-In" < facts.length) ∧
    (missing_co_rate facts = 0 ↔ 2000 * countClass facts "Missing c/o" < facts.length) := by
  have hlen : facts.length ≠ 0 := by simpa [List.length_eq_zero] using h
  have hL : (0 : Rat) < (facts.length : Rat) := by exact_mod_cast Nat.pos_of_ne_zero hlen
  refine ⟨rfl, rfl, rfl, rfl, fun s => rfl,
    ⟨rate1dp_nonneg _ _, rate1dp_le_100 _ _ (List.length_filter_le _ _)⟩,
    ⟨rate1dp_nonneg _ _, rate1dp_le_100 _ _ (List.length_filter_le _ _)⟩,
    ⟨rate1dp_nonneg _ _, rate1dp_le_100 _ _ (List.length_filter_le _ _)⟩,
    ⟨rate1dp_nonneg _ _, rate1dp_le_100 _ _ (List.length_filter_le _ _)⟩,
    ?_, rate1dp_eq_zero_iff _ _ hlen, rate1dp_eq_zero_iff _ _ hlen,
    rate1dp_eq_zero_iff _ _ hlen, rate1dp_eq_zero_iff _ _ hlen⟩
  have b1 := rate1dp_le_unrounded_add (countClass facts "Finger") facts.length
  have b2 := rate1dp_le_unrounded_add (countClass facts "Provisional Entry") facts.length
  have b3 := rate1dp_le_unrounded_add (countClass facts "Write-In") facts.length
  have b4 := rate1dp_le_unrounded_add (countClass facts "Missing c/o") facts.length
  have hc := four_counts_le_length facts
  have hsum : ((countClass facts "Finger" : Rat) + (countClass facts "Provisional Entry" : Rat)
      + (countClass facts "Write-In" : Rat) + (countClass facts "Missing c/o" : Rat))
      ≤ (facts.length : Rat) := by exact_mod_cast hc
  have hone : ((countClass facts "Finger" : Rat) + (countClass facts "Provisional Entry" : Rat)
      + (countClass facts "Write-In" : Rat) + (countClass facts "Missing c/o" : Rat))
        / (facts.length : Rat) ≤ 1 :=
    div_le_one_of_le hsum (le_of_lt hL)
  have hkey : ((countClass facts "Finger" : Rat) / (facts.length : Rat)) * 100
      + ((countClass facts "Provisional Entry" : Rat) / (facts.length : Rat)) * 100
      + ((countClass facts "Write-In" : Rat) / (facts.length : Rat)) * 100
      + ((countClass facts "Missing c/o" : Rat) / (facts.length : Rat)) * 100 ≤ 100 := by
    have hexp : ((countClass facts "Finger" : Rat) / (facts.length : Rat)) * 100
        + ((countClass facts "Provisional Entry" : Rat) / (facts.length : Rat)) * 100
        + ((countClass facts "Write-In" : Rat) / (facts.length : Rat)) * 100
        + ((countClass facts "Missing c/o" : Rat) / (facts.length : Rat)) * 100
        = (((countClass facts "Finger" : Rat) + (countClass facts "Provisional Entry" : Rat)
            + (countClass facts "Write-In" : Rat) + (countClass facts "Missing c/o" : Rat))
              / (facts.length : Rat)) * 100 := by ring
    rw [hexp]
    linarith
  show rate1dp (countClass facts "Finger") facts.length
      + rate1dp (countClass facts "Provisional Entry") facts.length
      + rate1dp (countClass facts "Write-In") facts.length
      + rate1dp (countClass facts "Missing c/o") facts.length ≤ 100 + 1 / 5
  linarith

/-- Witness for claim C4 at a one-fact collection. -/
theorem compliance_rates_spec_witness :
    0 ≤ finger_rate fingerOnly ∧ finger_rate fingerOnly ≤ 100 :=
  (compliance_rates_spec fingerOnly (by decide)).2.2.2.2.2.1

/-- Counterexample to claim C4 as stated: with classification counts
3, 7, 11 and 59 out of 80 facts, every unrounded rate ends in a half
tenth, each rounds up, and the four one-decimal rates sum to 100.2,
exceeding 100. -/
theorem rounded_rates_sum_exceeds_100 :
    100 < finger_rate ratesSkew + provisional_rate ratesSkew + write_in_rate ratesSkew
      + missing_co_rate ratesSkew := by
  have h1 : countClass ratesSkew "Finger" = 3 := by decide
  have h2 : countClass ratesSkew "Provisional Entry" = 7 := by decide
  have h3 : countClass ratesSkew "Write-In" = 11 := by decide
  have h4 : countClass ratesSkew "Missing c/o" = 59 := by decide
  have hl : ratesSkew.length = 80 := by decide
  unfold finger_rate provisional_rate write_in_rate missing_co_rate
  rw [h1, h2, h3, h4, hl]
  norm_num [rate1dp, round_eq]

/-- Claim C7: the normalizer keeps every row (same count, same order,
row i of the output built from row i of the input) and degrades
cell-level defects to type defaults: unparseable or missing date cells
become null, unparseable or missing numeric cells become 0, missing
text cells become the empty string, and valid cells keep their values;
on a concrete row with a bad date, the date field is null while the
name field of the same row keeps its value. -/
theorem normalizer_cell_defaults (t : RawTable) (y : Int) :
    (normalizeTable t y).length = t.rows.length ∧
    (∀ i : Fin t.rows.length,
        (normalizeTable t y)[(i : Nat)]? = some (normalizeRow (renamedCols t) (t.rows.get i) y)) ∧
    (∀ s, coerceDate (some (RawCell.text s)) = none) ∧
    coerceDate (some RawCell.missing) = none ∧
    (∀ q, coerceDate (some (RawCell.number q)) = none) ∧
    (∀ d, coerceDate (some (RawCell.dateVal d)) = some d) ∧
    (∀ s, coerceNum (some (RawCell.text s)) = 0) ∧
    coerceNum (some RawCell.missing) = 0 ∧
    (∀ q, coerceNum (some (RawCell.number q)) = q) ∧
    coerceStr (some RawCell.missing) = "" ∧
    (∀ s, coerceStr (some (RawCell.text s)) = s) ∧
    ((normalizeTable tblBadDate y)[0]?.map (fun f => f.dt_end_cli_work_week)) = some none ∧
    ((normalizeTable tblBadDate y)[0]?.map (fun f => f.full_name)) = some "Jane" := by
  refine ⟨by simp [normalizeTable], ?_, fun s => rfl, rfl, fun q => rfl, fun d => rfl,
    fun s => rfl, rfl, fun q => rfl, rfl, fun s => rfl, rfl, rfl⟩
  intro i
  simp [normalizeTable, List.getElem?_map, List.getElem?_eq_getElem i.isLt]

/-- Claim C8: the enrollment-needed flag of an employee is set if and
only if the provisional-entry count strictly exceeds the threshold 2;
a count of 3 yields the flag, a count of 2 does not. -/
theorem enrollment_flag_threshold (facts : List TimeEntry) (name : String) (n : Int) :
    (enrollmentFlag facts name = "Yes" ↔ 2 < provisionalCount facts name) ∧
    (calculate_enrollment_status n = "Yes" ↔ ENROLLMENT_THRESHOLD < n) ∧
    calculate_enrollment_status 3 = "Yes" ∧
    calculate_enrollment_status 2 = "" := by
  refine ⟨?_, ?_, by decide, by decide⟩
  · unfold enrollmentFlag calculate_enrollment_status ENROLLMENT_THRESHOLD
    split_ifs with hc
    · exact iff_of_true rfl (by exact_mod_cast hc)
    · refine iff_of_false (by decide) (fun hlt => hc ?_)
      exact_mod_cast hlt
  · unfold calculate_enrollment_status
    split_ifs with hc
    · exact iff_of_true rfl hc
    · exact iff_of_false (by decide) hc

/-- Every standard classification has a column in the intermediate
pivot_table: the ensure-loop of _write_all_pivot adds a zero column for
each one not observed. -/
theorem mem_pivotTableColumns_of_standard (facts : List TimeEntry) (et : String)
    (h : et ∈ standard_entry_types) : et ∈ pivotTableColumns facts := by
  unfold pivotTableColumns
  by_cases hd : et ∈ (facts.map (fun f => f.entry_type)).dedup
  · exact List.mem_append_left _ hd
  · exact List.mem_append_right _ (List.mem_filter.mpr ⟨h, by simp [hd]⟩)

/-- The written All sheet always carries exactly the columns Employee,
the four standard entry types and Grand Total: the final column
selection keeps nothing else, whatever classifications the data
holds. -/
theorem allSheetColumns_eq (facts : List TimeEntry) :
    allSheetColumns facts
      = ["Employee", "Finger", "Missing c/o", "Provisional Entry", "Write-In", "Grand Total"] := by
  have h1 := mem_pivotTableColumns_of_standard facts "Finger" (by decide)
  have h2 := mem_pivotTableColumns_of_standard facts "Missing c/o" (by decide)
  have h3 := mem_pivotTableColumns_of_standard facts "Provisional Entry" (by decide)
  have h4 := mem_pivotTableColumns_of_standard facts "Write-In" (by decide)
  unfold allSheetColumns standard_entry_types
  simp [List.filter_cons, h1, h2, h3, h4]

/-- Claim C10 (amended): in the employee-by-entry-type pivot, an
employee's Grand Total counts only the four standard classifications —
it plus the count of the employee's non-standard facts equals the
employee's total fact count, so the Grand Total can fall short of that
total.  Facts with any other classification value do get a column of
their own in the intermediate pivot_table, but the final column
selection drops every non-standard column before the sheet is written:
the written All sheet always carries exactly Employee, the four
standard classification columns and Grand Total. -/
theorem all_pivot_grand_total_spec (facts : List TimeEntry) (name : String) :
    (grandTotal facts name + countOther facts name = countName facts name) ∧
    grandTotal facts name ≤ countName facts name ∧
    (∀ i : Fin facts.length, (facts.get i).entry_type ∈ pivotTableColumns facts) ∧
    allSheetColumns facts
      = ["Employee", "Finger", "Missing c/o", "Provisional Entry", "Write-In", "Grand Total"] ∧
    grandTotal exOther "B" = 0 ∧
    countName exOther "B" = 1 := by
  refine ⟨grand_total_partition facts name, ?_, ?_, allSheetColumns_eq facts,
    by decide, by decide⟩
  · have hp := grand_total_partition facts name
    omega
  · intro i
    have hmem : (facts.get i).entry_type ∈ facts.map (fun f => f.entry_type) :=
      List.mem_map_of_mem _ (facts.get_mem i.1 i.2)
    unfold pivotTableColumns
    exact List.mem_append_left _ (List.mem_dedup.mpr hmem)

/-- Counterexample to claim C10 as stated: a fact classified Biometric
Badge has its own column in the intermediate pivot_table, but that
column is absent from the columns written to the All sheet — the
non-standard classification does not appear under its own column in the
report — while the fact is also excluded from the employee's Grand
Total. -/
theorem nonstandard_column_dropped_from_all_sheet :
    "Biometric Badge" ∈ pivotTableColumns exOther ∧
    "Biometric Badge" ∉ allSheetColumns exOther ∧
    grandTotal exOther "B" = 0 ∧
    countName exOther "B" = 1 := by
  decide

end XlcBstt
